import Mathlib

/-!
Shallow embedding of the DNSSEC-validating DNS client of this repository
(`src/client/client.rs`) together with the mDNS client stream
(`proto/src/multicast/mdns_client_stream.rs`).

The client is modelled as explicit state passing: a `CState` holds the
per-client `next_id` counter and the number of queries sent so far over the
transport.  External collaborators that are not part of the repository's
core source (the transport together with the wire codec's decode side, the
trust anchor store, the openssl key operations, the signature hasher and
digest functions) are collected in an `Env` record of abstract functions,
each documented where it is declared.  The recursive chain-of-trust walker
is fuel-bounded, because its termination depends on the transport's
responses; exhausting fuel is reported through a distinguished error that
stands for divergence of the source program.
-/

/-- Octet sequences (`Vec<u8>` in the source). -/
abbrev Octets := List Nat

/-- Modelled from the spec: `domain::Name` (not under src/) is an ordered
sequence of labels; the root is the empty sequence.  Labels are assumed
normalized to lowercase, so the source's case-insensitive comparison is
structural equality here. -/
abbrev Name := List String

/-- Handle standing for an openssl public key value (`PKey`). -/
abbrev PKey := Nat

/-- DNS class (`DNSClass`). -/
inductive DNSClass where
  | IN
  | CH
  | HS
  | ANY
deriving DecidableEq, Repr

/-- DNS record types used by the client (`RecordType`). -/
inductive RecordType where
  | A
  | AAAA
  | CNAME
  | DNSKEY
  | DS
  | NS
  | OPT
  | RRSIG
  | SOA
  | TXT
deriving DecidableEq, Repr

/-- DNSSEC signing algorithms (`Algorithm`). -/
inductive Algorithm where
  | RSASHA1
  | RSASHA256
  | RSASHA512
  | ECDSAP256SHA256
  | ECDSAP384SHA384
deriving DecidableEq, Repr

/-- DS digest algorithms (`DigestType`). -/
inductive DigestType where
  | SHA1
  | SHA256
deriving DecidableEq, Repr

/-- DNS response codes (`ResponseCode`). -/
inductive ResponseCode where
  | NoError
  | FormErr
  | ServFail
  | NXDomain
  | NotImp
  | Refused
deriving DecidableEq, Repr

/-- Message type flag (`MessageType`). -/
inductive MessageType where
  | Query
  | Response
deriving DecidableEq, Repr

/-- Message opcode (`OpCode`). -/
inductive OpCode where
  | Query
  | Status
  | Notify
  | Update
deriving DecidableEq, Repr

/-- Tagged record data (`RData`), with the variants and fields the spec's
data model lists for this core: A, AAAA, DNSKEY, DS, the SIG variant for
RRSIG, and an opaque fallback. -/
inductive RData where
  | A (address : Nat)
  | AAAA (address : Nat)
  | DNSKEY (zone_key : Bool) (secure_entry_point : Bool) (revoke : Bool)
      (protocol : Nat) (algorithm : Algorithm) (public_key : Octets)
  | DS (key_tag : Nat) (algorithm : Algorithm) (digest_type : DigestType)
      (digest : Octets)
  | SIG (type_covered : RecordType) (algorithm : Algorithm) (num_labels : Nat)
      (original_ttl : Nat) (sig_expiration : Nat) (sig_inception : Nat)
      (key_tag : Nat) (signer_name : Name) (sig_bytes : Octets)
  | other (bytes : Octets)
deriving DecidableEq, Repr

/-- A resource record (`Record`): owner name, type code, class, TTL, rdata.
As in the source, the stored type code is a field of its own, separate from
the rdata tag. -/
structure Record where
  name : Name
  rr_type : RecordType
  dns_class : DNSClass
  ttl : Nat
  rdata : RData
deriving DecidableEq, Repr

/-- EDNS pseudo-record fields used by the client (`Edns`). -/
structure Edns where
  max_payload : Nat
  version : Nat
  dnssec_ok : Bool
deriving DecidableEq, Repr

/-- A query section entry (`Query`). -/
structure Query where
  qname : Name
  query_class : DNSClass
  query_type : RecordType
deriving DecidableEq, Repr

/-- A DNS message (`Message`), restricted to the fields the client reads or
writes. -/
structure Message where
  id : Nat
  message_type : MessageType
  op_code : OpCode
  recursion_desired : Bool
  authentic_data : Bool
  checking_disabled : Bool
  response_code : ResponseCode
  edns : Option Edns
  queries : List Query
  answers : List Record
deriving DecidableEq, Repr

/-- The client error taxonomy (`ClientError`).  The panic variants stand for
the source's `panic!` calls on rdata variants that contradict the stored
record type after filtering; `OutOfFuel` stands for divergence of the
fuel-bounded recursion and is produced by no terminating source path. -/
inductive ClientError where
  | NoRRSIG
  | NoDS
  | IncorrectMessageId (got : Nat) (expect : Nat)
  | ErrorResponse (code : ResponseCode)
  | DecodeError
  | TransportError
  | KeyParseError
  | UnsupportedAlgorithm
  | PanicExpectedDNSKEY
  | PanicExpectedRRSIG
  | PanicExpectedDS
  | OutOfFuel
deriving DecidableEq, Repr

/-- Mutable client state: the `next_id` cell of `Client` plus a count of
queries issued over the transport (observable side effect of `send`). -/
structure CState where
  nextId : Nat
  sent : Nat
deriving DecidableEq, Repr

/-- The external collaborators of the client, as abstract functions.

* `respond`: modelled from the spec's transport contract joined with the
  codec's decode side: the decoded reply to the k-th query issued on this
  connection, or a transport / decode failure.
* `trustAnchorContains`: modelled from the spec: the trust anchor store is
  a pre-seeded set of root public-key octet blobs with a `contains` test
  (`TrustAnchor::new().contains`).
* `publicKeyFromVec`: `Algorithm::public_key_from_vec`, fallible key parse.
* `pkeyCanVerify`: `PKey::can(Role::Verify)`.
* `hashRrset`: `Signer::hash_rrset` for a signer built from an algorithm, a
  parsed key and the signer name.
* `verify`: `Signer::verify` of a hash input against signature octets.
* `digestHash`: `DigestType::hash`.
* `canonicalName`, `canonicalRData`: the codec's canonical-mode emit of a
  name and of an rdata (`BinEncoder` with `canonical_names`). -/
structure Env where
  respond : Nat → Except ClientError Message
  trustAnchorContains : Octets → Bool
  publicKeyFromVec : Algorithm → Octets → Except ClientError PKey
  pkeyCanVerify : PKey → Bool
  hashRrset : Algorithm → PKey → Name → Record → List Record → Octets
  verify : Algorithm → PKey → Name → Octets → Octets → Bool
  digestHash : DigestType → Octets → Octets
  canonicalName : Name → Octets
  canonicalRData : RData → Octets

/-- Result type of the verification functions: a chain-of-proof or an
error, together with the client state after the call. -/
abbrev VRes := Except ClientError (List Record) × CState

/-- Shape of the recursive verification callback
(`Client::recursive_query_verify` partially applied). -/
abbrev Recurse := Name → List Record → List Record → RecordType → DNSClass → CState → VRes

/-- Shape of the DNSKEY verification callback (`Client::verify_dnskey`). -/
abbrev Vdk := Record → CState → VRes

/-- `Message::new` defaults.  Modelled from the spec's data model for the
fields the client later overwrites or leaves untouched; all flags start
clear, sections empty, no EDNS. -/
def Message.new : Message :=
  { id := 0
    message_type := .Query
    op_code := .Query
    recursion_desired := false
    authentic_data := false
    checking_disabled := false
    response_code := .NoError
    edns := none
    queries := []
    answers := [] }

/-- `Edns::new` defaults.  Modelled from the spec: EDNS starts with the
plain 512-octet payload, version 0 and the DNSSEC OK bit clear. -/
def Edns.new : Edns :=
  { max_payload := 512, version := 0, dnssec_ok := false }

/-- The message construction of `Client::inner_query` (client.rs lines
264-286): fresh id, opcode Query, recursion desired; EDNS with payload 1500
and version 0; in secure mode the DNSSEC OK, authentic-data and
checking-disabled settings; one query section entry. -/
def build_query (id : Nat) (name : Name) (query_class : DNSClass)
    (query_type : RecordType) (secure : Bool) : Message :=
  let message := Message.new
  let message := { message with
                   id := id
                   message_type := MessageType.Query
                   op_code := OpCode.Query
                   recursion_desired := true }
  let edns := Edns.new
  let ednsMessage :=
    if secure then
      ({ edns with dnssec_ok := true },
       { message with authentic_data := true, checking_disabled := false })
    else (edns, message)
  let edns := { ednsMessage.1 with max_payload := 1500, version := 0 }
  let message := { ednsMessage.2 with edns := some edns }
  let query : Query := { qname := name
                         query_class := query_class
                         query_type := query_type }
  { message with queries := message.queries ++ [query] }

/-- State advance of one `inner_query` call: `next_id` is bumped by one
(16-bit wrap-around, the release semantics of `id + 1` on `u16`) and one
query goes out over the transport. -/
def step_state (s : CState) : CState :=
  { nextId := (s.nextId + 1) % 65536, sent := s.sent + 1 }

/-- `Client::next_id` value handed to the query being built: the current
counter. -/
def current_id (s : CState) : Nat := s.nextId

/-- `Client::inner_query` (client.rs lines 258-305): build the query
message, send it, decode the reply, then check id correlation and the
response code, in that order. -/
def inner_query (env : Env) (name : Name) (query_class : DNSClass)
    (query_type : RecordType) (secure : Bool) (s : CState) :
    Except ClientError Message × CState :=
  let id := current_id s
  let _message := build_query id name query_class query_type secure
  let s' := step_state s
  match env.respond s.sent with
  | .error e => (.error e, s')
  | .ok response =>
    if response.id ≠ id then
      (.error (.IncorrectMessageId response.id id), s')
    else if response.response_code ≠ ResponseCode.NoError then
      (.error (.ErrorResponse response.response_code), s')
    else (.ok response, s')

/-- The state `Client::new` starts from: `next_id` seeded with 1037, no
query sent yet. -/
def client_new_state : CState := { nextId := 1037, sent := 0 }

/-- The DS candidate loop of `Client::verify_dnskey` (client.rs lines
183-223): for each DS record, hash the canonical owner name concatenated
with the canonical DNSKEY rdata and compare octet-wise with the DS digest;
on the first match prove the DS rrset itself through the recursive walker
and append the DNSKEY; exhausting the candidates yields `NoDS`.  A record
that survived the DS type filter but carries non-DS rdata hits the
source's `panic!`. -/
def ds_loop (env : Env) (recurse : Recurse) (dnskey : Record)
    (ds_rrset ds_rrsigs : List Record) :
    List Record → CState → VRes
  | [], s => (.error .NoDS, s)
  | ds :: rest, s =>
    match ds.rdata with
    | .DS _ _ digest_type digest =>
      let buf := env.canonicalName dnskey.name ++ env.canonicalRData dnskey.rdata
      let hash := env.digestHash digest_type buf
      if hash = digest then
        match recurse dnskey.name ds_rrset ds_rrsigs RecordType.DNSKEY dnskey.dns_class s with
        | (.error e, s') => (.error e, s')
        | (.ok proof, s') => (.ok (proof ++ [dnskey]), s')
      else ds_loop env recurse dnskey ds_rrset ds_rrsigs rest s
    | _ => (.error .PanicExpectedDS, s)

/-- The root trust-anchor test at the top of `Client::verify_dnskey`
(client.rs lines 171-177): the owner is the root and, when the rdata is a
DNSKEY, the trust anchor store contains its public key. -/
def dnskey_root_anchor (env : Env) (dnskey : Record) : Bool :=
  if dnskey.name = ([] : Name) then
    match dnskey.rdata with
    | .DNSKEY _ _ _ _ _ public_key => env.trustAnchorContains public_key
    | _ => false
  else false

/-- The DS branch of `Client::verify_dnskey` (client.rs lines 179-223):
query the owner for DS records, split the answer into the DS rrset and its
RRSIGs, then run the DS candidate loop. -/
def ds_query_branch (env : Env) (recurse : Recurse) (dnskey : Record)
    (s : CState) : VRes :=
  match inner_query env dnskey.name dnskey.dns_class RecordType.DS true s with
  | (.error e, s') => (.error e, s')
  | (.ok ds_response, s') =>
    let ds_rrset := ds_response.answers.filter fun rr => decide (rr.rr_type = RecordType.DS)
    let ds_rrsigs := ds_response.answers.filter fun rr => decide (rr.rr_type = RecordType.RRSIG)
    ds_loop env recurse dnskey ds_rrset ds_rrsigs ds_rrset s'

/-- `Client::verify_dnskey` (client.rs lines 168-224), parameterized by the
recursive walker it calls back into: a root-owned DNSKEY found in the trust
anchor store is its own one-element proof; otherwise fall through to the DS
query branch. -/
def verify_dnskey_go (env : Env) (recurse : Recurse) (dnskey : Record)
    (s : CState) : VRes :=
  if dnskey_root_anchor env dnskey then (.ok [dnskey], s)
  else ds_query_branch env recurse dnskey s

/-- The candidate DNSKEY loop of `Client::recursive_query_verify`
(client.rs lines 126-157).  For one RRSIG (algorithm `sig_alg`, signer
`signer_name`, signature `sig_bytes`) walk the fetched DNSKEY rrset:
revoked keys, keys with the zone-key flag clear and keys of a different
algorithm are skipped; a key whose parse fails propagates that error (the
source's `try!`); a parsed key that cannot verify is skipped; on a
successful signature verification either the self-signed case goes to
`verify_dnskey` or the walker recurses on the signer's DNSKEY rrset, and
the verifying DNSKEY is appended to the proof.  `none` means the loop fell
through all candidates. -/
def candidate_loop (env : Env) (recurse : Recurse) (vdk : Vdk)
    (name : Name) (rrset : List Record) (query_type : RecordType)
    (query_class : DNSClass) (rrsig : Record) (sig_alg : Algorithm)
    (signer_name : Name) (sig_bytes : Octets)
    (key_rrset key_rrsigs : List Record) :
    List Record → CState → Option (Except ClientError (List Record)) × CState
  | [], s => (none, s)
  | dnskey :: rest, s =>
    match dnskey.rdata with
    | .DNSKEY zone_key _ revoke _ algorithm public_key =>
      if revoke then
        candidate_loop env recurse vdk name rrset query_type query_class rrsig
          sig_alg signer_name sig_bytes key_rrset key_rrsigs rest s
      else if zone_key = false then
        candidate_loop env recurse vdk name rrset query_type query_class rrsig
          sig_alg signer_name sig_bytes key_rrset key_rrsigs rest s
      else if algorithm ≠ sig_alg then
        candidate_loop env recurse vdk name rrset query_type query_class rrsig
          sig_alg signer_name sig_bytes key_rrset key_rrsigs rest s
      else
        match env.publicKeyFromVec algorithm public_key with
        | .error e => (some (.error e), s)
        | .ok pkey =>
          if env.pkeyCanVerify pkey = false then
            candidate_loop env recurse vdk name rrset query_type query_class rrsig
              sig_alg signer_name sig_bytes key_rrset key_rrsigs rest s
          else
            let rrset_hash := env.hashRrset algorithm pkey signer_name rrsig rrset
            if env.verify algorithm pkey signer_name rrset_hash sig_bytes then
              if signer_name = name ∧ query_type = RecordType.DNSKEY then
                match vdk dnskey s with
                | (.error e, s') => (some (.error e), s')
                | (.ok proof, s') => (some (.ok (proof ++ [dnskey])), s')
              else
                match recurse signer_name key_rrset key_rrsigs RecordType.DNSKEY query_class s with
                | (.error e, s') => (some (.error e), s')
                | (.ok proof, s') => (some (.ok (proof ++ [dnskey])), s')
            else
              candidate_loop env recurse vdk name rrset query_type query_class rrsig
                sig_alg signer_name sig_bytes key_rrset key_rrsigs rest s
    | _ => (some (.error .PanicExpectedDNSKEY), s)

/-- The RRSIG loop of `Client::recursive_query_verify` (client.rs lines
119-163): for each RRSIG whose owner equals `name`, fetch the signer's
DNSKEYs, split the reply into DNSKEY rrset and RRSIGs, and run the
candidate loop; a fallen-through candidate loop moves on to the next RRSIG;
an exhausted RRSIG list yields `NoRRSIG`.  A name-matching record in the
RRSIG list whose rdata is not a SIG hits the source's `panic!`. -/
def rrsig_loop (env : Env) (recurse : Recurse) (vdk : Vdk)
    (name : Name) (rrset : List Record) (query_type : RecordType)
    (query_class : DNSClass) :
    List Record → CState → VRes
  | [], s => (.error .NoRRSIG, s)
  | rrsig :: rest, s =>
    if rrsig.name = name then
      match rrsig.rdata with
      | .SIG _ sig_alg _ _ _ _ _ signer_name sig_bytes =>
        match inner_query env signer_name query_class RecordType.DNSKEY true s with
        | (.error e, s') => (.error e, s')
        | (.ok key_response, s') =>
          let key_rrset := key_response.answers.filter fun rr => decide (rr.rr_type = RecordType.DNSKEY)
          let key_rrsigs := key_response.answers.filter fun rr => decide (rr.rr_type = RecordType.RRSIG)
          match candidate_loop env recurse vdk name rrset query_type query_class
              rrsig sig_alg signer_name sig_bytes key_rrset key_rrsigs key_rrset s' with
          | (some r, s'') => (r, s'')
          | (none, s'') =>
            rrsig_loop env recurse vdk name rrset query_type query_class rest s''
      | _ => (.error .PanicExpectedRRSIG, s)
    else rrsig_loop env recurse vdk name rrset query_type query_class rest s

/-- `Client::recursive_query_verify` (client.rs lines 94-164), bounded by
fuel.  If the rrset's first record is typed DNSKEY and its rdata has both
the zone-key and secure-entry-point flags, short-circuit to
`verify_dnskey` and append the record; a DNSKEY-typed first record with
non-DNSKEY rdata hits the source's `panic!`; otherwise run the standard
RRSIG verification loop. -/
def recursive_query_verify (env : Env) :
    Nat → Name → List Record → List Record → RecordType → DNSClass → CState → VRes
  | 0, _, _, _, _, _, s => (.error .OutOfFuel, s)
  | fuel + 1, name, rrset, rrsigs, query_type, query_class, s =>
    match rrset.head? with
    | some record =>
      if record.rr_type = RecordType.DNSKEY then
        match record.rdata with
        | .DNSKEY zone_key secure_entry_point _ _ _ _ =>
          if zone_key && secure_entry_point then
            match verify_dnskey_go env (recursive_query_verify env fuel) record s with
            | (.error e, s') => (.error e, s')
            | (.ok proof, s') => (.ok (proof ++ [record]), s')
          else
            rrsig_loop env (recursive_query_verify env fuel)
              (verify_dnskey_go env (recursive_query_verify env fuel))
              name rrset query_type query_class rrsigs s
        | _ => (.error .PanicExpectedDNSKEY, s)
      else
        rrsig_loop env (recursive_query_verify env fuel)
          (verify_dnskey_go env (recursive_query_verify env fuel))
          name rrset query_type query_class rrsigs s
    | none =>
      rrsig_loop env (recursive_query_verify env fuel)
        (verify_dnskey_go env (recursive_query_verify env fuel))
        name rrset query_type query_class rrsigs s

/-- `Client::verify_dnskey` at a given fuel: the DNSKEY verifier calling
back into the fuel-bounded recursive walker. -/
def verify_dnskey (env : Env) (fuel : Nat) (dnskey : Record) (s : CState) : VRes :=
  verify_dnskey_go env (recursive_query_verify env fuel) dnskey s

/-- First-occurrence deduplication of (owner name, record type) keys.  The
source collects them in a `HashSet` whose iteration order is unspecified;
this determinization keeps the first occurrence order. -/
def dedup_keys (seen : List (Name × RecordType)) :
    List (Name × RecordType) → List (Name × RecordType)
  | [] => []
  | k :: ks =>
    if k ∈ seen then dedup_keys seen ks
    else k :: dedup_keys (k :: seen) ks

/-- The per-rrset verification loop of `Client::secure_query` (client.rs
lines 74-85): for each (name, type) key, filter the matching rrset out of
the answers and run the recursive walker on it with the full RRSIG list and
the original query type and class; the first error aborts. -/
def verify_rrsets (env : Env) (fuel : Nat) (answers rrsig_list : List Record)
    (query_type : RecordType) (query_class : DNSClass) :
    List (Name × RecordType) → CState → Except ClientError Unit × CState
  | [], s => (.ok (), s)
  | (n, t) :: rest, s =>
    let rrset := answers.filter fun rr => decide (rr.rr_type = t ∧ rr.name = n)
    match recursive_query_verify env fuel n rrset rrsig_list query_type query_class s with
    | (.error e, s') => (.error e, s')
    | (.ok _proof, s') =>
      verify_rrsets env fuel answers rrsig_list query_type query_class rest s'

/-- `Client::secure_query` (client.rs lines 50-90): issue the secure query,
collect the RRSIGs from the answer (failing with `NoRRSIG` when there are
none), group the remaining answer records into rrsets by (name, type),
verify each rrset, and on success return the original answer message. -/
def secure_query (env : Env) (fuel : Nat) (name : Name)
    (query_class : DNSClass) (query_type : RecordType) (s : CState) :
    Except ClientError Message × CState :=
  match inner_query env name query_class query_type true s with
  | (.error e, s') => (.error e, s')
  | (.ok record_response, s') =>
    let rrsig_list := record_response.answers.filter fun rr => decide (rr.rr_type = RecordType.RRSIG)
    if rrsig_list.isEmpty then (.error .NoRRSIG, s')
    else
      let keys := dedup_keys []
        ((record_response.answers.filter fun rr => decide (rr.rr_type ≠ RecordType.RRSIG)).map
          fun rr => (rr.name, rr.rr_type))
      match verify_rrsets env fuel record_response.answers rrsig_list query_type query_class keys s' with
      | (.error e, s'') => (.error e, s'')
      | (.ok _, s'') => (.ok record_response, s'')

/-- Poll outcomes of a futures 0.1 stream: an item, not ready, or an
error. -/
inductive MPoll (α : Type) where
  | ready (item : α)
  | notReady
  | pollError (code : Nat)
deriving DecidableEq, Repr

/-- Transport-level source address of a received datagram. -/
abbrev SockAddr := Nat

/-- `MdnsClientStream::poll` (mdns_client_stream.rs lines 117-126): forward
the underlying multicast stream's poll result, dropping the source address
from a received frame; not-ready and errors pass through (`try_ready!`),
and end-of-stream passes through as end-of-stream. -/
def mdns_client_stream_poll (inner : MPoll (Option (Octets × SockAddr))) :
    MPoll (Option Octets) :=
  match inner with
  | .pollError e => .pollError e
  | .notReady => .notReady
  | .ready (some (buffer, _src_addr)) => .ready (some buffer)
  | .ready none => .ready none

/-- Append-one-record combinator matching the source's `proof.push(record)`
after a successful sub-proof and error propagation otherwise. -/
def push_record (record : Record) : VRes → VRes
  | (.error e, s') => (.error e, s')
  | (.ok proof, s') => (.ok (proof ++ [record]), s')

/-- Chain-of-proof terminality: the first record of the proof is a DNSKEY
owned by the root whose public key the trust anchor store contains. -/
def anchored (env : Env) (proof : List Record) : Prop :=
  ∃ r, proof.head? = some r ∧ r.name = ([] : Name) ∧
    ∃ zk sep rv pr alg pk, r.rdata = RData.DNSKEY zk sep rv pr alg pk ∧
      env.trustAnchorContains pk = true

/-- One candidate DNSKEY record is skipped or fails verification for a
given RRSIG: it is revoked, its zone-key flag is clear, its algorithm
differs from the RRSIG's, or its key parses but either cannot verify or
the signature check fails. -/
def candidate_fails (env : Env) (rrset : List Record) (sig_alg : Algorithm)
    (signer_name : Name) (rrsig : Record) (sig_bytes : Octets) (d : Record) : Prop :=
  ∃ zk sep rv pr alg pk, d.rdata = RData.DNSKEY zk sep rv pr alg pk ∧
    (rv = true ∨ zk = false ∨ alg ≠ sig_alg ∨
      ∃ k, env.publicKeyFromVec alg pk = .ok k ∧
        (env.pkeyCanVerify k = false ∨
         env.verify alg k signer_name
           (env.hashRrset alg k signer_name rrsig rrset) sig_bytes = false))

/-- The rrset routes `recursive_query_verify` to the standard RRSIG loop:
it is empty, or its first record is not typed DNSKEY, or its first record
is a DNSKEY without both the zone-key and secure-entry-point flags. -/
def rrsig_path (rrset : List Record) : Prop :=
  match rrset.head? with
  | none => True
  | some r => r.rr_type ≠ RecordType.DNSKEY ∨
      ∃ zk sep rv pr alg pk, r.rdata = RData.DNSKEY zk sep rv pr alg pk ∧
        (zk && sep) = false

/-- A response message with the given id, response code and answers. -/
def mk_response (id : Nat) (code : ResponseCode) (answers : List Record) : Message :=
  { id := id
    message_type := .Response
    op_code := .Query
    recursion_desired := true
    authentic_data := false
    checking_disabled := false
    response_code := code
    edns := none
    queries := []
    answers := answers }

/-- Concrete environment skeleton for test runs: the given transport
script and trust anchor store, keys always parse to handle 1, every key
can verify, every signature verifies, every digest computes to `[7]`. -/
def base_env (respond : Nat → Except ClientError Message)
    (anchor : Octets → Bool) : Env :=
  { respond := respond
    trustAnchorContains := anchor
    publicKeyFromVec := fun _ _ => .ok 1
    pkeyCanVerify := fun _ => true
    hashRrset := fun _ _ _ _ _ => [5]
    verify := fun _ _ _ _ _ => true
    digestHash := fun _ _ => [7]
    canonicalName := fun _ => []
    canonicalRData := fun _ => [] }

/-- Fixed algorithm used by the concrete test data. -/
def algX : Algorithm := .RSASHA256

/-- Concrete public keys: the anchored root key. -/
def pkRoot : Octets := [1]

/-- Concrete public keys: the `com.` zone key, absent from every store. -/
def pkCom : Octets := [2]

/-- Concrete public keys: a key whose parse fails. -/
def pkBad : Octets := [3]

/-- Concrete public keys: an anchored key with a parsing counterpart. -/
def pkGood : Octets := [8]

/-- Root-owned trust-anchored DNSKEY record. -/
def rootdk : Record :=
  { name := [], rr_type := .DNSKEY, dns_class := .IN, ttl := 0, rdata := .DNSKEY true true false 3 algX pkRoot }

/-- `com.` DNSKEY record with zone-key and secure-entry-point flags. -/
def comdk : Record :=
  { name := ["com"], rr_type := .DNSKEY, dns_class := .IN, ttl := 0, rdata := .DNSKEY true true false 3 algX pkCom }

/-- `com.` DS record whose digest matches the constant digest function. -/
def dsrecC1 : Record :=
  { name := ["com"], rr_type := .DS, dns_class := .IN, ttl := 0, rdata := .DS 0 algX .SHA256 [7] }

/-- RRSIG over the `com.` DS rrset, signed from the root. -/
def dssigC1 : Record :=
  { name := ["com"], rr_type := .RRSIG, dns_class := .IN, ttl := 0, rdata := .SIG .DS algX 1 0 0 0 0 [] [9] }

/-- Transport script for the `com.` DNSKEY chain: first the DS answer for
`com.`, then the root DNSKEY answer. -/
def envC1 : Env :=
  base_env
    (fun k =>
      if k = 0 then .ok (mk_response 1037 .NoError [dsrecC1, dssigC1])
      else if k = 1 then .ok (mk_response 1038 .NoError [rootdk])
      else .error .TransportError)
    (fun pk => decide (pk = pkRoot))

/-- `com.` DS record whose digest does not match the digest function. -/
def dsrecC3 : Record :=
  { name := ["com"], rr_type := .DS, dns_class := .IN, ttl := 0, rdata := .DS 0 algX .SHA256 [8] }

/-- Transport script answering the `com.` DS query with a mismatching DS. -/
def envC3 : Env :=
  base_env
    (fun k =>
      if k = 0 then .ok (mk_response 1037 .NoError [dsrecC3])
      else .error .TransportError)
    (fun pk => decide (pk = pkRoot))

/-- Root DNSKEY whose public key does not parse. -/
def dkBad : Record :=
  { name := [], rr_type := .DNSKEY, dns_class := .IN, ttl := 0, rdata := .DNSKEY true false false 3 algX pkBad }

/-- Root DNSKEY, anchored, whose public key parses. -/
def dkGood : Record :=
  { name := [], rr_type := .DNSKEY, dns_class := .IN, ttl := 0, rdata := .DNSKEY true true false 3 algX pkGood }

/-- Root DNSKEY rrset member without the secure-entry-point flag, so the
walker takes the RRSIG path. -/
def dk0 : Record :=
  { name := [], rr_type := .DNSKEY, dns_class := .IN, ttl := 0, rdata := .DNSKEY true false false 3 algX pkGood }

/-- Self-signed RRSIG over the root DNSKEY rrset. -/
def sigrec0 : Record :=
  { name := [], rr_type := .RRSIG, dns_class := .IN, ttl := 0, rdata := .SIG .DNSKEY algX 0 0 0 0 0 [] [9] }

/-- Environment whose DNSKEY answer lists the unparsable key first and the
good key second; parsing `pkBad` fails. -/
def envC4 : Env :=
  { base_env
      (fun k =>
        if k = 0 then .ok (mk_response 1037 .NoError [dkBad, dkGood])
        else .error .TransportError)
      (fun pk => decide (pk = pkGood)) with
    publicKeyFromVec := fun _ pk =>
      if pk = pkBad then .error .KeyParseError else .ok 1 }

/-- Same environment as `envC4` except that the answer only carries the
good key. -/
def envC4b : Env :=
  { base_env
      (fun k =>
        if k = 0 then .ok (mk_response 1037 .NoError [dkGood])
        else .error .TransportError)
      (fun pk => decide (pk = pkGood)) with
    publicKeyFromVec := fun _ pk =>
      if pk = pkBad then .error .KeyParseError else .ok 1 }

/-- A revoked root DNSKEY: always a skipped candidate. -/
def dkRevoked : Record :=
  { name := [], rr_type := .DNSKEY, dns_class := .IN, ttl := 0, rdata := .DNSKEY true false true 3 algX [0] }

/-- An A record under `example.`. -/
def arecW : Record :=
  { name := ["example"], rr_type := .A, dns_class := .IN, ttl := 0, rdata := .A 42 }

/-- RRSIG over the `example.` A rrset, signed from `net.`. -/
def sigW : Record :=
  { name := ["example"], rr_type := .RRSIG, dns_class := .IN, ttl := 0, rdata := .SIG .A algX 1 0 0 0 0 ["net"] [9] }

/-- Script answering every DNSKEY fetch with a correctly correlated message
whose only candidate is the revoked key. -/
def envC5 : Env :=
  base_env
    (fun k => .ok (mk_response ((1037 + k) % 65536) .NoError [dkRevoked]))
    (fun _ => false)

/-- Script answering the initial secure query with an RRSIG-free answer. -/
def envC6 : Env :=
  base_env
    (fun k =>
      if k = 0 then .ok (mk_response 1037 .NoError [arecW])
      else .error .TransportError)
    (fun _ => false)

/-- Script answering with a wrong message id. -/
def envC7a : Env :=
  base_env (fun _ => .ok (mk_response 99 .NoError [arecW])) (fun _ => false)

/-- Script answering with a correct id but SERVFAIL. -/
def envC7b : Env :=
  base_env (fun _ => .ok (mk_response 1037 .ServFail [arecW])) (fun _ => false)

/-- Script answering with a correct id and NoError. -/
def envC7c : Env :=
  base_env (fun _ => .ok (mk_response 1037 .NoError [arecW])) (fun _ => false)

/-- Script answering with a wrong id and SERVFAIL at once. -/
def envC10 : Env :=
  base_env (fun _ => .ok (mk_response 99 .ServFail [arecW])) (fun _ => false)

/-- A recursive-walker callback only returns anchored proofs. -/
def recurse_anchored (env : Env) (recurse : Recurse) : Prop :=
  ∀ name rrset rrsigs qt qc s proof s',
    recurse name rrset rrsigs qt qc s = (.ok proof, s') → anchored env proof

/-- A DNSKEY-verifier callback only returns anchored proofs. -/
def vdk_anchored (env : Env) (vdk : Vdk) : Prop :=
  ∀ dk s proof s', vdk dk s = (.ok proof, s') → anchored env proof

theorem inner_query_snd (env : Env) (n : Name) (qc : DNSClass) (qt : RecordType)
    (sec : Bool) (s : CState) : (inner_query env n qc qt sec s).2 = step_state s := by
  simp only [inner_query]
  cases env.respond s.sent with
  | error e => rfl
  | ok response =>
    by_cases h1 : response.id ≠ current_id s
    · simp [h1]
    · by_cases h2 : response.response_code ≠ ResponseCode.NoError
      · simp [h1, h2]
      · simp [h1, h2]

theorem inner_query_respond_error (env : Env) (n : Name) (qc : DNSClass)
    (qt : RecordType) (sec : Bool) (s : CState) (e : ClientError)
    (h : env.respond s.sent = .error e) :
    inner_query env n qc qt sec s = (.error e, step_state s) := by
  simp only [inner_query, h]

theorem inner_query_id_mismatch (env : Env) (n : Name) (qc : DNSClass)
    (qt : RecordType) (sec : Bool) (s : CState) (m : Message)
    (h : env.respond s.sent = .ok m) (hid : m.id ≠ s.nextId) :
    inner_query env n qc qt sec s = (.error (.IncorrectMessageId m.id s.nextId), step_state s) := by
  simp only [inner_query, h, current_id]
  simp [hid]

theorem inner_query_bad_code (env : Env) (n : Name) (qc : DNSClass)
    (qt : RecordType) (sec : Bool) (s : CState) (m : Message)
    (h : env.respond s.sent = .ok m) (hid : m.id = s.nextId)
    (hrc : m.response_code ≠ ResponseCode.NoError) :
    inner_query env n qc qt sec s = (.error (.ErrorResponse m.response_code), step_state s) := by
  simp only [inner_query, h, current_id]
  simp [hid, hrc]

theorem inner_query_ok_intro (env : Env) (n : Name) (qc : DNSClass)
    (qt : RecordType) (sec : Bool) (s : CState) (m : Message)
    (h : env.respond s.sent = .ok m) (hid : m.id = s.nextId)
    (hrc : m.response_code = ResponseCode.NoError) :
    inner_query env n qc qt sec s = (.ok m, step_state s) := by
  simp only [inner_query, h, current_id]
  simp [hid, hrc]

theorem inner_query_ok_elim (env : Env) (n : Name) (qc : DNSClass)
    (qt : RecordType) (sec : Bool) (s : CState) (r : Message) (s' : CState)
    (hh : inner_query env n qc qt sec s = (.ok r, s')) :
    env.respond s.sent = .ok r ∧ r.id = s.nextId ∧
      r.response_code = ResponseCode.NoError ∧ s' = step_state s := by
  simp only [inner_query, current_id] at hh
  cases h : env.respond s.sent with
  | error e => rw [h] at hh; simp at hh
  | ok m =>
    rw [h] at hh
    by_cases h1 : m.id ≠ s.nextId
    · simp [h1] at hh
    · by_cases h2 : m.response_code ≠ ResponseCode.NoError
      · simp [h1, h2] at hh
      · simp [h1, h2] at hh
        obtain ⟨rfl, rfl⟩ := hh
        exact ⟨rfl, not_not.mp h1, not_not.mp h2, rfl⟩

/-- C6: an answer whose answer section holds no RRSIG makes `secure_query`
fail with `NoRRSIG`, and the client has sent exactly one query over the
transport — the initial one that produced that answer. -/
theorem claim_C6_no_rrsig (env : Env) (fuel : Nat) (name : Name)
    (qc : DNSClass) (qt : RecordType) (s : CState) (m : Message) (s' : CState)
    (hq : inner_query env name qc qt true s = (.ok m, s'))
    (hno : m.answers.filter (fun rr => decide (rr.rr_type = RecordType.RRSIG)) = []) :
    secure_query env fuel name qc qt s = (.error .NoRRSIG, s') ∧
      s'.sent = s.sent + 1 := by
  constructor
  · simp only [secure_query]
    rw [hq]
    simp [hno]
  · have h2 := inner_query_snd env name qc qt true s
    rw [hq] at h2
    simp only at h2
    rw [h2]
    rfl

/-- C6 witness: a concrete RRSIG-free answer. -/
theorem claim_C6_no_rrsig_witness :
    secure_query envC6 1 ["example"] DNSClass.IN RecordType.A client_new_state =
      (.error .NoRRSIG, { nextId := 1038, sent := 1 }) ∧
      ({ nextId := 1038, sent := 1 } : CState).sent = client_new_state.sent + 1 :=
  claim_C6_no_rrsig envC6 1 ["example"] DNSClass.IN RecordType.A client_new_state
    (mk_response 1037 .NoError [arecW]) { nextId := 1038, sent := 1 } rfl rfl

/-- C7: `inner_query` fails with `IncorrectMessageId` exactly on an id
mismatch, fails with `ErrorResponse` on a correlated reply whose response
code is not `NoError`, and any reply it returns carries the query's id. -/
theorem claim_C7_correlation (env : Env) (n : Name) (qc : DNSClass)
    (qt : RecordType) (sec : Bool) (s : CState) :
    (∀ m, env.respond s.sent = .ok m → m.id ≠ s.nextId →
       inner_query env n qc qt sec s =
         (.error (.IncorrectMessageId m.id s.nextId), step_state s)) ∧
    (∀ m, env.respond s.sent = .ok m → m.id = s.nextId →
       m.response_code ≠ ResponseCode.NoError →
       inner_query env n qc qt sec s =
         (.error (.ErrorResponse m.response_code), step_state s)) ∧
    (∀ r s', inner_query env n qc qt sec s = (.ok r, s') → r.id = s.nextId) := by
  refine ⟨?_, ?_, ?_⟩
  · intro m h hid
    exact inner_query_id_mismatch env n qc qt sec s m h hid
  · intro m h hid hrc
    exact inner_query_bad_code env n qc qt sec s m h hid hrc
  · intro r s' hh
    exact (inner_query_ok_elim env n qc qt sec s r s' hh).2.1

/-- C7 witness: the three correlation behaviors on concrete scripts. -/
theorem claim_C7_correlation_witness :
    inner_query envC7a ["example"] DNSClass.IN RecordType.A true client_new_state =
      (.error (.IncorrectMessageId 99 1037), step_state client_new_state) ∧
    inner_query envC7b ["example"] DNSClass.IN RecordType.A true client_new_state =
      (.error (.ErrorResponse ResponseCode.ServFail), step_state client_new_state) ∧
    (mk_response 1037 .NoError [arecW]).id = client_new_state.nextId :=
  ⟨(claim_C7_correlation envC7a ["example"] DNSClass.IN RecordType.A true client_new_state).1
      (mk_response 99 .NoError [arecW]) rfl (by decide),
   (claim_C7_correlation envC7b ["example"] DNSClass.IN RecordType.A true client_new_state).2.1
      (mk_response 1037 .ServFail [arecW]) rfl rfl (by decide),
   (claim_C7_correlation envC7c ["example"] DNSClass.IN RecordType.A true client_new_state).2.2
      (mk_response 1037 .NoError [arecW]) { nextId := 1038, sent := 1 } rfl⟩

/-- C8: the query message carries the current counter value as its id,
with opcode Query, recursion desired, EDNS payload 1500 and version 0, the
DNSSEC OK bit equal to the secure flag, authentic-data set and
checking-disabled clear in secure mode, and one query entry; the counter
starts at the fixed seed 1037 at construction and each query bumps it by
one modulo 2^16. -/
theorem claim_C8_query_construction (idv : Nat) (name : Name) (qc : DNSClass)
    (qt : RecordType) (sec : Bool) (env : Env) (s : CState) :
    (build_query idv name qc qt sec).id = idv ∧
    (build_query idv name qc qt sec).message_type = MessageType.Query ∧
    (build_query idv name qc qt sec).op_code = OpCode.Query ∧
    (build_query idv name qc qt sec).recursion_desired = true ∧
    (build_query idv name qc qt sec).edns =
      some { max_payload := 1500, version := 0, dnssec_ok := sec } ∧
    (sec = true → (build_query idv name qc qt sec).authentic_data = true ∧
       (build_query idv name qc qt sec).checking_disabled = false) ∧
    (build_query idv name qc qt sec).queries =
      [{ qname := name, query_class := qc, query_type := qt }] ∧
    client_new_state.nextId = 1037 ∧
    (inner_query env name qc qt sec s).2.nextId = (s.nextId + 1) % 65536 ∧
    (inner_query env name qc qt sec s).2.sent = s.sent + 1 := by
  refine ⟨?_, ?_, ?_, ?_, ?_, ?_, ?_, rfl, ?_, ?_⟩
  · cases sec <;> rfl
  · cases sec <;> rfl
  · cases sec <;> rfl
  · cases sec <;> rfl
  · cases sec <;> rfl
  · intro h
    subst h
    exact ⟨rfl, rfl⟩
  · cases sec <;> rfl
  · rw [inner_query_snd]
    rfl
  · rw [inner_query_snd]
    rfl

/-- C8 witness: concrete query construction in secure mode. -/
theorem claim_C8_query_construction_witness :
    (build_query 1037 ["example"] DNSClass.IN RecordType.A true).id = 1037 ∧
    (build_query 1037 ["example"] DNSClass.IN RecordType.A true).authentic_data = true ∧
    (build_query 1037 ["example"] DNSClass.IN RecordType.A true).checking_disabled = false ∧
    (inner_query envC7c ["example"] DNSClass.IN RecordType.A true client_new_state).2.nextId =
      (client_new_state.nextId + 1) % 65536 :=
  ⟨(claim_C8_query_construction 1037 ["example"] DNSClass.IN RecordType.A true envC7c client_new_state).1,
   ((claim_C8_query_construction 1037 ["example"] DNSClass.IN RecordType.A true envC7c client_new_state).2.2.2.2.2.1 rfl).1,
   ((claim_C8_query_construction 1037 ["example"] DNSClass.IN RecordType.A true envC7c client_new_state).2.2.2.2.2.1 rfl).2,
   (claim_C8_query_construction 1037 ["example"] DNSClass.IN RecordType.A true envC7c client_new_state).2.2.2.2.2.2.2.2.1⟩

/-- C9: the mDNS client stream forwards exactly the received datagram's
octets with the source address discarded, and reaches end-of-stream exactly
when the underlying multicast stream does. -/
theorem claim_C9_mdns_poll (p : MPoll (Option (Octets × SockAddr))) :
    (∀ buffer src_addr, p = .ready (some (buffer, src_addr)) →
       mdns_client_stream_poll p = .ready (some buffer)) ∧
    (mdns_client_stream_poll p = .ready none ↔ p = .ready none) ∧
    (p = .notReady → mdns_client_stream_poll p = .notReady) ∧
    (∀ e, p = .pollError e → mdns_client_stream_poll p = .pollError e) := by
  refine ⟨?_, ?_, ?_, ?_⟩
  · rintro b a rfl
    rfl
  · cases p with
    | ready o =>
      cases o with
      | none => simp [mdns_client_stream_poll]
      | some pr =>
        obtain ⟨b, a⟩ := pr
        simp [mdns_client_stream_poll]
    | notReady => simp [mdns_client_stream_poll]
    | pollError e => simp [mdns_client_stream_poll]
  · rintro rfl
    rfl
  · rintro e rfl
    rfl

/-- C9 witness: a concrete frame and a concrete end-of-stream. -/
theorem claim_C9_mdns_poll_witness :
    mdns_client_stream_poll (.ready (some ([1, 2], 7))) = .ready (some [1, 2]) ∧
    mdns_client_stream_poll (.ready none) = (.ready none : MPoll (Option Octets)) :=
  ⟨(claim_C9_mdns_poll (.ready (some ([1, 2], 7)))).1 [1, 2] 7 rfl,
   (claim_C9_mdns_poll (.ready none)).2.1.mpr rfl⟩

/-- C10: on a reply that simultaneously has a wrong id and a non-NoError
response code, `inner_query` fails with `IncorrectMessageId`, not
`ErrorResponse`: the id check comes first. -/
theorem claim_C10_id_check_first (env : Env) (n : Name) (qc : DNSClass)
    (qt : RecordType) (sec : Bool) (s : CState) (m : Message)
    (h : env.respond s.sent = .ok m) (hid : m.id ≠ s.nextId)
    (hrc : m.response_code ≠ ResponseCode.NoError) :
    inner_query env n qc qt sec s =
      (.error (.IncorrectMessageId m.id s.nextId), step_state s) :=
  inner_query_id_mismatch env n qc qt sec s m h hid

/-- C10 witness: wrong id together with SERVFAIL yields the id error. -/
theorem claim_C10_id_check_first_witness :
    inner_query envC10 ["example"] DNSClass.IN RecordType.A true client_new_state =
      (.error (.IncorrectMessageId 99 1037), step_state client_new_state) :=
  claim_C10_id_check_first envC10 ["example"] DNSClass.IN RecordType.A true
    client_new_state (mk_response 99 .ServFail [arecW]) rfl (by decide) (by decide)

theorem ds_loop_nods (env : Env) (recurse : Recurse) (dk : Record)
    (ds_rrset ds_rrsigs : List Record) (lst : List Record) (s : CState)
    (h : ∀ ds ∈ lst, ∃ kt a dt dg, ds.rdata = RData.DS kt a dt dg ∧
       env.digestHash dt (env.canonicalName dk.name ++ env.canonicalRData dk.rdata) ≠ dg) :
    ds_loop env recurse dk ds_rrset ds_rrsigs lst s = (.error .NoDS, s) := by
  induction lst with
  | nil => rfl
  | cons ds rest ih =>
    obtain ⟨kt, a, dt, dg, hrd, hne⟩ := h ds (by simp)
    simp only [ds_loop, hrd]
    rw [if_neg hne]
    exact ih (fun x hx => h x (by simp [hx]))

theorem dnskey_root_anchor_iff (env : Env) (dk : Record) :
    dnskey_root_anchor env dk = true ↔
      dk.name = ([] : Name) ∧ ∃ zk sep rv pr alg pk,
        dk.rdata = RData.DNSKEY zk sep rv pr alg pk ∧
        env.trustAnchorContains pk = true := by
  constructor
  · intro h
    unfold dnskey_root_anchor at h
    split at h
    · rename_i hn
      split at h
      · rename_i zk sep rv pr alg pk heq
        exact ⟨hn, zk, sep, rv, pr, alg, pk, heq, h⟩
      · exact absurd h (by simp)
    · exact absurd h (by simp)
  · rintro ⟨hn, zk, sep, rv, pr, alg, pk, hrd, hta⟩
    unfold dnskey_root_anchor
    rw [if_pos hn, hrd]
    exact hta

/-- C2: an rrset whose first record is typed DNSKEY with both the zone-key
and secure-entry-point flags short-circuits `recursive_query_verify` to
`verify_dnskey` on that record, whose proof is returned with the record
appended — no RRSIG verification happens. -/
theorem claim_C2_base_case (env : Env) (f : Nat) (name : Name)
    (rrset rrsigs : List Record) (qt : RecordType) (qc : DNSClass) (s : CState)
    (record : Record) (rv : Bool) (pr : Nat) (alg : Algorithm) (pk : Octets)
    (h1 : rrset.head? = some record)
    (h2 : record.rr_type = RecordType.DNSKEY)
    (h3 : record.rdata = RData.DNSKEY true true rv pr alg pk) :
    recursive_query_verify env (f + 1) name rrset rrsigs qt qc s =
      push_record record (verify_dnskey env f record s) := by
  simp only [recursive_query_verify, h1, h2, if_true, h3, Bool.and_self, if_pos]
  rcases hv : verify_dnskey_go env (recursive_query_verify env f) record s with ⟨r, s'⟩
  cases r <;> simp [push_record, verify_dnskey, hv]

/-- C2 witness: the `com.` DNSKEY rrset goes straight to DNSKEY
verification. -/
theorem claim_C2_base_case_witness :
    recursive_query_verify envC1 3 ["com"] [comdk] [] RecordType.A DNSClass.IN client_new_state =
      push_record comdk (verify_dnskey envC1 2 comdk client_new_state) :=
  claim_C2_base_case envC1 2 ["com"] [comdk] [] RecordType.A DNSClass.IN
    client_new_state comdk false 3 algX pkCom rfl rfl rfl

/-- C3: `verify_dnskey` returns the one-element proof exactly on a
root-owned DNSKEY whose key the trust anchor store contains; in every
other case it proceeds to the DS query branch; and when every DS record of
a successfully fetched answer fails the octet comparison of its digest
against the computed digest of canonical(owner) concatenated with
canonical(DNSKEY rdata), it fails with `NoDS`. -/
theorem claim_C3_verify_dnskey (env : Env) (f : Nat) (dk : Record) (s : CState) :
    (∀ zk sep rv pr alg pk, dk.name = ([] : Name) →
       dk.rdata = RData.DNSKEY zk sep rv pr alg pk →
       env.trustAnchorContains pk = true →
       verify_dnskey env f dk s = (.ok [dk], s)) ∧
    (dnskey_root_anchor env dk = true ↔
       dk.name = ([] : Name) ∧ ∃ zk sep rv pr alg pk,
         dk.rdata = RData.DNSKEY zk sep rv pr alg pk ∧
         env.trustAnchorContains pk = true) ∧
    (dnskey_root_anchor env dk = false →
       verify_dnskey env f dk s =
         ds_query_branch env (recursive_query_verify env f) dk s) ∧
    (∀ m s', dnskey_root_anchor env dk = false →
       inner_query env dk.name dk.dns_class RecordType.DS true s = (.ok m, s') →
       (∀ ds ∈ m.answers, ds.rr_type = RecordType.DS →
          ∃ kt a dt dg, ds.rdata = RData.DS kt a dt dg ∧
            env.digestHash dt (env.canonicalName dk.name ++ env.canonicalRData dk.rdata) ≠ dg) →
       verify_dnskey env f dk s = (.error .NoDS, s')) := by
  refine ⟨?_, dnskey_root_anchor_iff env dk, ?_, ?_⟩
  · intro zk sep rv pr alg pk hn hrd hta
    have hanch : dnskey_root_anchor env dk = true :=
      (dnskey_root_anchor_iff env dk).mpr ⟨hn, zk, sep, rv, pr, alg, pk, hrd, hta⟩
    simp [verify_dnskey, verify_dnskey_go, hanch]
  · intro hanch
    simp [verify_dnskey, verify_dnskey_go, hanch]
  · intro m s' hanch hq hall
    simp only [verify_dnskey, verify_dnskey_go, hanch, Bool.false_eq_true, if_false,
      ds_query_branch]
    rw [hq]
    apply ds_loop_nods
    intro ds hds
    rw [List.mem_filter] at hds
    exact hall ds hds.1 (by simpa using hds.2)

/-- C3 witness: the anchored root DNSKEY is its own proof, and a DS answer
with only mismatching digests yields `NoDS`. -/
theorem claim_C3_verify_dnskey_witness :
    verify_dnskey envC1 0 rootdk client_new_state = (.ok [rootdk], client_new_state) ∧
    verify_dnskey envC3 1 comdk client_new_state =
      (.error .NoDS, { nextId := 1038, sent := 1 }) :=
  ⟨(claim_C3_verify_dnskey envC1 0 rootdk client_new_state).1
      true true false 3 algX pkRoot rfl rfl rfl,
   (claim_C3_verify_dnskey envC3 1 comdk client_new_state).2.2.2
      (mk_response 1037 .NoError [dsrecC3]) { nextId := 1038, sent := 1 } rfl rfl
      (by
        intro ds hds hty
        simp only [mk_response, List.mem_singleton] at hds
        subst hds
        exact ⟨0, algX, .SHA256, [8], rfl, by decide⟩)⟩

/-- C4 amended: during candidate DNSKEY enumeration, a candidate whose
parsed key is not verification-capable is skipped and the next candidate
is tried, but a candidate whose public key fails to parse makes the loop
return that parse error (the source's `try!` propagates it out of
`recursive_query_verify`). -/
theorem claim_C4_candidate_enumeration (env : Env) (recurse : Recurse) (vdk : Vdk)
    (name : Name) (rrset : List Record) (qt : RecordType) (qc : DNSClass)
    (rrsig : Record) (sig_alg : Algorithm) (sn : Name) (sb : Octets)
    (kr krs : List Record) (d : Record) (rest : List Record) (s : CState)
    (sep : Bool) (pr : Nat) (pk : Octets) :
    (∀ e, d.rdata = RData.DNSKEY true sep false pr sig_alg pk →
       env.publicKeyFromVec sig_alg pk = .error e →
       candidate_loop env recurse vdk name rrset qt qc rrsig sig_alg sn sb
         kr krs (d :: rest) s = (some (.error e), s)) ∧
    (∀ k, d.rdata = RData.DNSKEY true sep false pr sig_alg pk →
       env.publicKeyFromVec sig_alg pk = .ok k →
       env.pkeyCanVerify k = false →
       candidate_loop env recurse vdk name rrset qt qc rrsig sig_alg sn sb
         kr krs (d :: rest) s =
       candidate_loop env recurse vdk name rrset qt qc rrsig sig_alg sn sb
         kr krs rest s) := by
  constructor
  · intro e hrd hpk
    simp [candidate_loop, hrd, hpk]
  · intro k hrd hpk hcv
    simp [candidate_loop, hrd, hpk, hcv]

/-- C4 witness: the amended behaviors on a concrete unparsable key and a
concrete non-verifying key. -/
theorem claim_C4_candidate_enumeration_witness :
    candidate_loop envC4 (recursive_query_verify envC4 1)
      (verify_dnskey_go envC4 (recursive_query_verify envC4 1))
      [] [dk0] RecordType.DNSKEY DNSClass.IN sigrec0 algX [] [9]
      [dkBad, dkGood] [] [dkBad, dkGood] { nextId := 1038, sent := 1 } =
      (some (.error .KeyParseError), { nextId := 1038, sent := 1 }) :=
  (claim_C4_candidate_enumeration envC4 (recursive_query_verify envC4 1)
      (verify_dnskey_go envC4 (recursive_query_verify envC4 1))
      [] [dk0] RecordType.DNSKEY DNSClass.IN sigrec0 algX [] [9]
      [dkBad, dkGood] [] dkBad [dkGood] { nextId := 1038, sent := 1 }
      false 3 pkBad).1 .KeyParseError rfl rfl

/-- C4 counterexample to the claim as stated: with the unparsable key
listed before a key that verifies, `recursive_query_verify` returns the
parse error instead of skipping to the next candidate — which would have
succeeded, as the second run shows. -/
theorem claim_C4_counterexample :
    (recursive_query_verify envC4 2 [] [dk0] [sigrec0]
        RecordType.DNSKEY DNSClass.IN client_new_state).1 = .error .KeyParseError ∧
    (recursive_query_verify envC4b 2 [] [dk0] [sigrec0]
        RecordType.DNSKEY DNSClass.IN client_new_state).1 = .ok [dkGood, dkGood] :=
  ⟨rfl, rfl⟩

theorem anchored_append (env : Env) (x : Record) {p : List Record}
    (h : anchored env p) : anchored env (p ++ [x]) := by
  obtain ⟨r, hr, hrest⟩ := h
  refine ⟨r, ?_, hrest⟩
  cases p with
  | nil => simp at hr
  | cons a t => simpa using hr

theorem ds_loop_anchored (env : Env) (recurse : Recurse) (dk : Record)
    (dsr dsrs : List Record) (hrec : recurse_anchored env recurse) :
    ∀ (lst : List Record) (s : CState) (proof : List Record) (s' : CState),
      ds_loop env recurse dk dsr dsrs lst s = (.ok proof, s') →
      anchored env proof := by
  intro lst
  induction lst with
  | nil =>
    intro s proof s' h
    simp [ds_loop] at h
  | cons ds rest ih =>
    intro s proof s' h
    simp only [ds_loop] at h
    split at h
    · split at h
      · split at h
        · simp at h
        · rename_i p s'' heq
          obtain ⟨h1, _⟩ := Prod.mk.injEq .. ▸ h
          simp only [Except.ok.injEq] at h1
          subst h1
          exact anchored_append env dk (hrec _ _ _ _ _ _ _ _ heq)
      · exact ih _ _ _ h
    · simp at h

theorem verify_dnskey_go_anchored (env : Env) (recurse : Recurse)
    (hrec : recurse_anchored env recurse) :
    vdk_anchored env (verify_dnskey_go env recurse) := by
  intro dk s proof s' h
  simp only [verify_dnskey_go] at h
  split at h
  · rename_i hanch
    obtain ⟨hn, zk, sep, rv, pr, alg, pk, hrd, hta⟩ :=
      (dnskey_root_anchor_iff env dk).mp hanch
    obtain ⟨h1, _⟩ := Prod.mk.injEq .. ▸ h
    simp only [Except.ok.injEq] at h1
    subst h1
    exact ⟨dk, rfl, hn, zk, sep, rv, pr, alg, pk, hrd, hta⟩
  · simp only [ds_query_branch] at h
    split at h
    · simp at h
    · exact ds_loop_anchored env recurse dk _ _ hrec _ _ _ _ h

theorem candidate_loop_anchored (env : Env) (recurse : Recurse) (vdk : Vdk)
    (hrec : recurse_anchored env recurse) (hvdk : vdk_anchored env vdk)
    (name : Name) (rrset : List Record) (qt : RecordType) (qc : DNSClass)
    (rrsig : Record) (sig_alg : Algorithm) (sn : Name) (sb : Octets)
    (kr krs : List Record) :
    ∀ (lst : List Record) (s : CState) (proof : List Record) (s' : CState),
      candidate_loop env recurse vdk name rrset qt qc rrsig sig_alg sn sb
        kr krs lst s = (some (.ok proof), s') →
      anchored env proof := by
  intro lst
  induction lst with
  | nil =>
    intro s proof s' h
    simp [candidate_loop] at h
  | cons d rest ih =>
    intro s proof s' h
    simp only [candidate_loop] at h
    split at h
    · split at h
      · exact ih _ _ _ h
      · split at h
        · exact ih _ _ _ h
        · split at h
          · exact ih _ _ _ h
          · split at h
            · simp at h
            · split at h
              · exact ih _ _ _ h
              · split at h
                · split at h
                  · split at h
                    · simp at h
                    · rename_i p s'' heq
                      obtain ⟨h1, _⟩ := Prod.mk.injEq .. ▸ h
                      simp only [Option.some.injEq, Except.ok.injEq] at h1
                      subst h1
                      exact anchored_append env d (hvdk _ _ _ _ heq)
                  · split at h
                    · simp at h
                    · rename_i p s'' heq
                      obtain ⟨h1, _⟩ := Prod.mk.injEq .. ▸ h
                      simp only [Option.some.injEq, Except.ok.injEq] at h1
                      subst h1
                      exact anchored_append env d (hrec _ _ _ _ _ _ _ _ heq)
                · exact ih _ _ _ h
    · simp at h

theorem rrsig_loop_anchored (env : Env) (recurse : Recurse) (vdk : Vdk)
    (hrec : recurse_anchored env recurse) (hvdk : vdk_anchored env vdk)
    (name : Name) (rrset : List Record) (qt : RecordType) (qc : DNSClass) :
    ∀ (rrsigs : List Record) (s : CState) (proof : List Record) (s' : CState),
      rrsig_loop env recurse vdk name rrset qt qc rrsigs s = (.ok proof, s') →
      anchored env proof := by
  intro rrsigs
  induction rrsigs with
  | nil =>
    intro s proof s' h
    simp [rrsig_loop] at h
  | cons rrsig rest ih =>
    intro s proof s' h
    simp only [rrsig_loop] at h
    split at h
    · split at h
      · split at h
        · simp at h
        · split at h
          · rename_i r s'' heq
            obtain ⟨h1, h2⟩ := Prod.mk.injEq .. ▸ h
            subst h1
            subst h2
            exact candidate_loop_anchored env recurse vdk hrec hvdk
              name rrset qt qc rrsig _ _ _ _ _ _ _ _ _ heq
          · exact ih _ _ _ h
      · simp at h
    · exact ih _ _ _ h

theorem recursive_query_verify_anchored (env : Env) :
    ∀ fuel : Nat, recurse_anchored env (recursive_query_verify env fuel) := by
  intro fuel
  induction fuel with
  | zero =>
    intro name rrset rrsigs qt qc s proof s' h
    simp [recursive_query_verify] at h
  | succ f ih =>
    intro name rrset rrsigs qt qc s proof s' h
    have hvdk := verify_dnskey_go_anchored env (recursive_query_verify env f) ih
    simp only [recursive_query_verify] at h
    split at h
    · split at h
      · split at h
        · split at h
          · split at h
            · simp at h
            · rename_i p s'' heq
              obtain ⟨h1, _⟩ := Prod.mk.injEq .. ▸ h
              simp only [Except.ok.injEq] at h1
              subst h1
              exact anchored_append env _ (hvdk _ _ _ _ heq)
          · exact rrsig_loop_anchored env _ _ ih hvdk name rrset qt qc rrsigs s proof s' h
        · simp at h
      · exact rrsig_loop_anchored env _ _ ih hvdk name rrset qt qc rrsigs s proof s' h
    · exact rrsig_loop_anchored env _ _ ih hvdk name rrset qt qc rrsigs s proof s' h

/-- C1 amended: every proof returned by `recursive_query_verify` or
`verify_dnskey` starts (rather than ends) with a DNSKEY whose owner is the
root and whose public key the trust anchor store contains; each verified
DNSKEY is appended after its sub-proof, so the anchor is the head of the
chain. -/
theorem claim_C1_first_anchored :
    (∀ (env : Env) (fuel : Nat) (name : Name) (rrset rrsigs : List Record)
       (qt : RecordType) (qc : DNSClass) (s : CState)
       (proof : List Record) (s' : CState),
       recursive_query_verify env fuel name rrset rrsigs qt qc s = (.ok proof, s') →
       anchored env proof) ∧
    (∀ (env : Env) (fuel : Nat) (dk : Record) (s : CState)
       (proof : List Record) (s' : CState),
       verify_dnskey env fuel dk s = (.ok proof, s') → anchored env proof) := by
  constructor
  · intro env fuel name rrset rrsigs qt qc s proof s' h
    exact recursive_query_verify_anchored env fuel name rrset rrsigs qt qc s proof s' h
  · intro env fuel dk s proof s' h
    exact verify_dnskey_go_anchored env (recursive_query_verify env fuel)
      (recursive_query_verify_anchored env fuel) dk s proof s' h

/-- C1 witness: the `com.` chain's proof is anchored at its head. -/
theorem claim_C1_first_anchored_witness :
    anchored envC1 [rootdk, rootdk, rootdk, comdk, comdk] :=
  claim_C1_first_anchored.1 envC1 3 ["com"] [comdk] [] RecordType.A DNSClass.IN
    client_new_state [rootdk, rootdk, rootdk, comdk, comdk]
    { nextId := 1039, sent := 2 } rfl

/-- C1 counterexample to the claim as stated: a returned proof whose LAST
record is the `com.` DNSKEY — owned by a non-root name and carrying a
public key the trust anchor store does not contain. -/
theorem claim_C1_counterexample :
    (recursive_query_verify envC1 3 ["com"] [comdk] [] RecordType.A DNSClass.IN
        client_new_state).1 = .ok [rootdk, rootdk, rootdk, comdk, comdk] ∧
    [rootdk, rootdk, rootdk, comdk, comdk].getLast? = some comdk ∧
    comdk.rdata = RData.DNSKEY true true false 3 algX pkCom ∧
    comdk.name ≠ ([] : Name) ∧
    envC1.trustAnchorContains pkCom = false :=
  ⟨rfl, rfl, rfl, by decide, rfl⟩

theorem candidate_loop_all_fail (env : Env) (recurse : Recurse) (vdk : Vdk)
    (name : Name) (rrset : List Record) (qt : RecordType) (qc : DNSClass)
    (rrsig : Record) (sig_alg : Algorithm) (sn : Name) (sb : Octets)
    (kr krs : List Record) :
    ∀ (lst : List Record) (s : CState),
      (∀ d ∈ lst, candidate_fails env rrset sig_alg sn rrsig sb d) →
      candidate_loop env recurse vdk name rrset qt qc rrsig sig_alg sn sb
        kr krs lst s = (none, s) := by
  intro lst
  induction lst with
  | nil => intro s _; rfl
  | cons d rest ih =>
    intro s h
    obtain ⟨zk, sep, rv, pr, alg, pk, hrd, hcase⟩ := h d (by simp)
    have hrest : ∀ x ∈ rest, candidate_fails env rrset sig_alg sn rrsig sb x :=
      fun x hx => h x (by simp [hx])
    simp only [candidate_loop, hrd]
    rcases hcase with hrv | hzk | halg | ⟨k, hok, hcv⟩
    · rw [if_pos hrv]
      exact ih s hrest
    · by_cases hrv : rv = true
      · rw [if_pos hrv]
        exact ih s hrest
      · rw [if_neg hrv, if_pos hzk]
        exact ih s hrest
    · by_cases hrv : rv = true
      · rw [if_pos hrv]
        exact ih s hrest
      · by_cases hzk : zk = false
        · rw [if_neg hrv, if_pos hzk]
          exact ih s hrest
        · rw [if_neg hrv, if_neg hzk, if_pos halg]
          exact ih s hrest
    · by_cases hrv : rv = true
      · rw [if_pos hrv]
        exact ih s hrest
      · by_cases hzk : zk = false
        · rw [if_neg hrv, if_pos hzk]
          exact ih s hrest
        · by_cases halg : alg ≠ sig_alg
          · rw [if_neg hrv, if_neg hzk, if_pos halg]
            exact ih s hrest
          · rw [if_neg hrv, if_neg hzk, if_neg halg]
            simp only [hok]
            rcases hcv with hcv | hvf
            · rw [if_pos hcv]
              exact ih s hrest
            · by_cases hc4 : env.pkeyCanVerify k = false
              · rw [if_pos hc4]
                exact ih s hrest
              · rw [if_neg hc4, if_neg (by simp [hvf])]
                exact ih s hrest

theorem rrsig_loop_norrsig (env : Env) (recurse : Recurse) (vdk : Vdk)
    (name : Name) (rrset : List Record) (qt : RecordType) (qc : DNSClass) :
    ∀ (rrsigs : List Record) (s : CState),
      s.nextId < 65536 →
      (∀ rrsig ∈ rrsigs, rrsig.name = name →
         ∃ tc a nl ot se si kt sn sb, rrsig.rdata = RData.SIG tc a nl ot se si kt sn sb) →
      (∀ i : Nat, ∃ m, env.respond (s.sent + i) = .ok m ∧
         m.id = (s.nextId + i) % 65536 ∧ m.response_code = ResponseCode.NoError ∧
         ∀ rrsig ∈ rrsigs, rrsig.name = name →
           ∀ tc a nl ot se si kt sn sb, rrsig.rdata = RData.SIG tc a nl ot se si kt sn sb →
             ∀ d ∈ m.answers, d.rr_type = RecordType.DNSKEY →
               candidate_fails env rrset a sn rrsig sb d) →
      (rrsig_loop env recurse vdk name rrset qt qc rrsigs s).1 = .error .NoRRSIG := by
  intro rrsigs
  induction rrsigs with
  | nil => intro s _ _ _; rfl
  | cons rrsig rest ih =>
    intro s hlt hsig hresp
    by_cases hn : rrsig.name = name
    · obtain ⟨tc, a, nl, ot, se, si, kt, sn, sb, hrd⟩ := hsig rrsig (by simp) hn
      obtain ⟨m, hr0, hid, hrc, hcand⟩ := hresp 0
      rw [Nat.add_zero] at hr0
      rw [Nat.add_zero, Nat.mod_eq_of_lt hlt] at hid
      have hq : inner_query env sn qc RecordType.DNSKEY true s = (.ok m, step_state s) :=
        inner_query_ok_intro env sn qc RecordType.DNSKEY true s m hr0 hid hrc
      have hcl := candidate_loop_all_fail env recurse vdk name rrset qt qc rrsig a sn sb
        (m.answers.filter fun rr => decide (rr.rr_type = RecordType.DNSKEY))
        (m.answers.filter fun rr => decide (rr.rr_type = RecordType.RRSIG))
        (m.answers.filter fun rr => decide (rr.rr_type = RecordType.DNSKEY))
        (step_state s)
        (fun d hd => by
          rw [List.mem_filter] at hd
          exact hcand rrsig (by simp) hn tc a nl ot se si kt sn sb hrd d hd.1
            (by simpa using hd.2))
      simp only [rrsig_loop, if_pos hn, hrd, hq, hcl]
      apply ih (step_state s)
      · exact Nat.mod_lt _ (by norm_num)
      · exact fun x hx => hsig x (by simp [hx])
      · intro i
        obtain ⟨m', hr', hid', hrc', hcand'⟩ := hresp (i + 1)
        refine ⟨m', ?_, ?_, hrc', ?_⟩
        · have hix : (step_state s).sent + i = s.sent + (i + 1) := by
            simp only [step_state]
            omega
          rw [hix]
          exact hr'
        · have hix : ((step_state s).nextId + i) % 65536 = (s.nextId + (i + 1)) % 65536 := by
            simp only [step_state]
            rw [Nat.mod_add_mod]
            congr 1
            omega
          rw [hix]
          exact hid'
        · intro x hx hxn tc' a' nl' ot' se' si' kt' sn' sb' hx2 d hd hdt
          exact hcand' x (by simp [hx]) hxn tc' a' nl' ot' se' si' kt' sn' sb' hx2 d hd hdt
    · simp only [rrsig_loop, if_neg hn]
      apply ih s hlt (fun x hx => hsig x (by simp [hx]))
      intro i
      obtain ⟨m, h1, h2, h3, h4⟩ := hresp i
      exact ⟨m, h1, h2, h3, fun x hx => h4 x (by simp [hx])⟩

theorem rqv_rrsig_path (env : Env) (f : Nat) (name : Name)
    (rrset rrsigs : List Record) (qt : RecordType) (qc : DNSClass) (s : CState)
    (hpath : rrsig_path rrset) :
    recursive_query_verify env (f + 1) name rrset rrsigs qt qc s =
      rrsig_loop env (recursive_query_verify env f)
        (verify_dnskey_go env (recursive_query_verify env f))
        name rrset qt qc rrsigs s := by
  simp only [recursive_query_verify]
  cases hh : rrset.head? with
  | none => rfl
  | some record =>
    simp only [rrsig_path, hh] at hpath
    dsimp only
    by_cases ht : record.rr_type = RecordType.DNSKEY
    · rw [if_pos ht]
      rcases hpath with hne | ⟨zk, sep, rv, pr, alg, pk, hrd, hzs⟩
      · exact absurd ht hne
      · rw [hrd]
        simp [hzs]
    · rw [if_neg ht]

/-- C5: when an rrset takes the RRSIG path (it is not a trust-anchored
DNSKEY rrset) and, for every owner-matching RRSIG, the correlated DNSKEY
fetch succeeds and every candidate DNSKEY in it is skipped (revoked,
zone-key flag clear, algorithm differing from the RRSIG's) or fails
signature verification, `recursive_query_verify` returns `NoRRSIG` — in
particular an algorithm mismatch between each RRSIG and every DNSKEY gives
`NoRRSIG` and no other error. -/
theorem claim_C5_all_fail_norrsig (env : Env) (f : Nat) (name : Name)
    (rrset rrsigs : List Record) (qt : RecordType) (qc : DNSClass) (s : CState)
    (hlt : s.nextId < 65536)
    (hpath : rrsig_path rrset)
    (hsig : ∀ rrsig ∈ rrsigs, rrsig.name = name →
       ∃ tc a nl ot se si kt sn sb, rrsig.rdata = RData.SIG tc a nl ot se si kt sn sb)
    (hresp : ∀ i : Nat, ∃ m, env.respond (s.sent + i) = .ok m ∧
       m.id = (s.nextId + i) % 65536 ∧ m.response_code = ResponseCode.NoError ∧
       ∀ rrsig ∈ rrsigs, rrsig.name = name →
         ∀ tc a nl ot se si kt sn sb, rrsig.rdata = RData.SIG tc a nl ot se si kt sn sb →
           ∀ d ∈ m.answers, d.rr_type = RecordType.DNSKEY →
             candidate_fails env rrset a sn rrsig sb d) :
    (recursive_query_verify env (f + 1) name rrset rrsigs qt qc s).1 =
      .error .NoRRSIG := by
  rw [rqv_rrsig_path env f name rrset rrsigs qt qc s hpath]
  exact rrsig_loop_norrsig env _ _ name rrset qt qc rrsigs s hlt hsig hresp

/-- C5 witness: a script whose only candidate is a revoked key drives the
walker into `NoRRSIG`. -/
theorem claim_C5_all_fail_norrsig_witness :
    (recursive_query_verify envC5 1 ["example"] [arecW] [sigW]
        RecordType.A DNSClass.IN client_new_state).1 = .error .NoRRSIG :=
  claim_C5_all_fail_norrsig envC5 0 ["example"] [arecW] [sigW]
    RecordType.A DNSClass.IN client_new_state
    (by decide)
    (Or.inl (by decide))
    (by
      intro x hx hxn
      simp only [List.mem_singleton] at hx
      subst hx
      exact ⟨.A, algX, 1, 0, 0, 0, 0, ["net"], [9], rfl⟩)
    (by
      intro i
      refine ⟨mk_response ((1037 + i) % 65536) .NoError [dkRevoked], ?_, rfl, rfl, ?_⟩
      · show envC5.respond (0 + i) =
          Except.ok (mk_response ((1037 + i) % 65536) .NoError [dkRevoked])
        rw [Nat.zero_add]
        rfl
      · intro x hx hxn tc a nl ot se si kt sn sb heq d hd hdt
        simp only [List.mem_singleton] at hx
        subst hx
        simp only [mk_response, List.mem_singleton] at hd
        subst hd
        exact ⟨true, false, true, 3, algX, [0], rfl, Or.inl rfl⟩)
